import Mathlib

/-!
# add-contextual-data: enrichment stage of syslog-ng

A shallow embedding of `modules/add-contextual-data/add-contextual-data.c`.

* C pointers (`gchar *`, `ContextInfoDB *`) are addresses into explicit heaps;
  `g_strdup`, `g_free`, `context_info_db_new/ref/unref` allocate, free and
  update heap cells.  Reading through a pointer that is not allocated is
  undefined behaviour in C and yields `none` here.
* The `AddContextualData` struct is passed by value (state passing of `*self`).
  Its `super` part (the host's `LogParser`) is owned by the pipeline framework
  and is not modelled.
* The collaborators whose code lives outside this file (selector resolver,
  record scanner, file system, import, host initialisation) are the fields of
  `Env`; the theorems hold for every `Env`.
-/

namespace AddContextualDataModel

/-! ## Heaps -/

/-- Address of a heap cell: the model of a C pointer. -/
abbrev Ptr := Nat

/-- Heap of objects: cell `p` is `some v` while allocated and `none` once freed. -/
abbrev Heap (α : Type) := List (Option α)

/-- Read through a pointer: `none` when the cell is not allocated. -/
def heap_read {α : Type} (h : Heap α) (p : Ptr) : Option α :=
  (h[p]?).getD none

/-- Allocate a fresh cell holding `v`; the new address is the old heap size, so
an address is never handed out twice. -/
def heap_alloc {α : Type} (h : Heap α) (v : α) : Heap α × Ptr :=
  (h ++ [some v], h.length)

/-- Overwrite the cell at `p`. -/
def heap_write {α : Type} (h : Heap α) (p : Ptr) (v : α) : Heap α :=
  h.set p (some v)

/-- Release the cell at `p`. -/
def heap_free {α : Type} (h : Heap α) (p : Ptr) : Heap α :=
  h.set p none

/-! ## Log messages (host framework) -/

/-- Modelled from the spec: the record being enriched is a collection of named
fields; `logmsg/logmsg.h` is not part of the sources at hand. A message is the
list of its (name, value) pairs. -/
abbrev LogMessage := List (String × String)

/-- Modelled from the spec: `log_msg_set_value_by_name` (missing, `logmsg/logmsg.h`)
sets `record.fields[name] = value`, overwriting a field already present. -/
def log_msg_set_value_by_name : LogMessage → String → String → LogMessage
  | [], name, value => [(name, value)]
  | (n, v) :: rest, name, value =>
    if n = name then (n, value) :: rest
    else (n, v) :: log_msg_set_value_by_name rest name value

/-- Modelled from the spec: reading the field `name` of a record (missing,
`logmsg/logmsg.h`). -/
def log_msg_get_value_by_name : LogMessage → String → Option String
  | [], _ => none
  | (n, v) :: rest, name => if n = name then some v else log_msg_get_value_by_name rest name

/-- Modelled from the spec: `log_msg_make_writable` (missing, `logmsg/logmsg.h`)
hands out a private writable copy of the record; the copy has the same fields. -/
def log_msg_make_writable (msg : LogMessage) : LogMessage := msg

/-! ## ContextInfoDB (`context-info-db.h`) -/

/-- The `ContextualDataRecord` triple: selector key, field name, field value. -/
structure ContextualDataRecord where
  selector : String
  name : String
  value : String
  deriving DecidableEq, Repr

/-- Modelled from the spec: the ContextDatabase (missing, `context-info-db.c`):
the records in insertion order, the `loaded` flag and the reference count. -/
structure ContextInfoDB where
  ref_cnt : Nat
  is_loaded : Bool
  data : List ContextualDataRecord
  deriving DecidableEq, Repr

/-- Modelled from the spec: `context_info_db_new` (missing): created empty, not
loaded, owned once. -/
def context_info_db_new : ContextInfoDB :=
  { ref_cnt := 1, is_loaded := false, data := [] }

/-- Modelled from the spec: `context_info_db_is_loaded` (missing): the `loaded` flag. -/
def context_info_db_is_loaded (self : ContextInfoDB) : Bool := self.is_loaded

/-- Modelled from the spec: `context_info_db_contains` (missing): exact-match
existence check; a null selector is not matched. -/
def context_info_db_contains (self : ContextInfoDB) (selector : Option String) : Bool :=
  match selector with
  | none => false
  | some key => self.data.any (fun r => r.selector = key)

/-- The loop of `context_info_db_foreach_record`: visit the records of `data`
stored under `key`, in order. -/
def foreach_record_loop {α : Type} (key : String) (callback : α → ContextualDataRecord → α) :
    List ContextualDataRecord → α → α
  | [], arg => arg
  | r :: rest, arg =>
    if r.selector = key then foreach_record_loop key callback rest (callback arg r)
    else foreach_record_loop key callback rest arg

/-- Modelled from the spec: `context_info_db_foreach_record` (missing): invokes
the callback for every record under `selector` in insertion order; no-op if
the selector is absent or null. -/
def context_info_db_foreach_record {α : Type} (self : ContextInfoDB) (selector : Option String)
    (callback : α → ContextualDataRecord → α) (arg : α) : α :=
  match selector with
  | none => arg
  | some key => foreach_record_loop key callback self.data arg

/-- Modelled from the spec: `context_info_db_ordered_selectors` (missing): all
distinct selectors in first-insertion order. -/
def context_info_db_ordered_selectors (self : ContextInfoDB) : List String :=
  (self.data.map (fun r => r.selector)).eraseDups

/-- Modelled from the spec: `context_info_db_ref` (missing): acquire one more
reference to the database at `p`. -/
def context_info_db_ref (dbs : Heap ContextInfoDB) (p : Ptr) : Heap ContextInfoDB × Ptr :=
  match heap_read dbs p with
  | none => (dbs, p)
  | some db => (heap_write dbs p { db with ref_cnt := db.ref_cnt + 1 }, p)

/-- Modelled from the spec: `context_info_db_unref` (missing): release one
reference; at reference count zero the database is destroyed. -/
def context_info_db_unref (dbs : Heap ContextInfoDB) (p : Ptr) : Heap ContextInfoDB :=
  match heap_read dbs p with
  | none => dbs
  | some db =>
    if db.ref_cnt ≤ 1 then heap_free dbs p
    else heap_write dbs p { db with ref_cnt := db.ref_cnt - 1 }

/-! ## External collaborators -/

/-- Modelled from the spec: the RecordScanner (missing,
`contextual-data-record-scanner.h`) is chosen by file type and carries the
name-prefix applied to scanned field names. -/
structure ContextualDataRecordScanner where
  scanner_type : Option String
  name_prefix : Option String
  deriving DecidableEq, Repr

/-- Modelled from the spec: `contextual_data_record_scanner_set_name_prefix`
(missing): store the name-prefix applied to scanned field names. -/
def contextual_data_record_scanner_set_name_prefix (scanner : ContextualDataRecordScanner)
    (pfx : Option String) : ContextualDataRecordScanner :=
  { scanner with name_prefix := pfx }

/-- An open stream: the contents of the file. -/
abbrev FILE := String

/-- The collaborators of the stage whose code is outside this file. `Sel` is the
type of selector resolvers (`AddContextualDataSelector`). -/
structure Env (Sel : Type) where
  /-- The function `add_contextual_data_selector_resolve`. -/
  selector_resolve : Option Sel → LogMessage → Option String
  /-- The function `add_contextual_data_selector_init`. -/
  selector_init : Option Sel → List String → Bool
  /-- The function `add_contextual_data_selector_clone`. -/
  selector_clone : Option Sel → Option Sel
  /-- The value of `get_installation_path_for(SYSLOG_NG_PATH_SYSCONFDIR)`. -/
  sysconfdir : String
  /-- The glib function `g_build_filename` on two elements. -/
  g_build_filename : String → String → String
  /-- The function `get_filename_extension` of `pathutils.h`. -/
  get_filename_extension : String → Option String
  /-- The function `create_contextual_data_record_scanner_by_type`. -/
  create_contextual_data_record_scanner_by_type : Option String → Option ContextualDataRecordScanner
  /-- The libc function `fopen(path, "r")`. -/
  fopen : String → Option FILE
  /-- The function `context_info_db_import`: success flag and the database afterwards. -/
  context_info_db_import :
    ContextInfoDB → FILE → ContextualDataRecordScanner → Bool × ContextInfoDB
  /-- The result of the host's `log_parser_init_method`. -/
  log_parser_init_method : Bool

/-! ## The stage -/

/-- The memory the stage works on: the `gchar *` heap and the `ContextInfoDB` heap. -/
structure World where
  strings : Heap String
  dbs : Heap ContextInfoDB
  deriving DecidableEq, Repr

/-- The `AddContextualData` struct. `prefix_` is the C field `prefix`. -/
structure AddContextualData (Sel : Type) where
  context_info_db : Ptr
  selector : Option Sel
  default_selector : Option Ptr
  filename : Option Ptr
  prefix_ : Option Ptr
  deriving DecidableEq, Repr

/-- The C string behind a `gchar *`: `some none` for NULL, `some (some s)` for an
allocated string, `none` (undefined behaviour) for a dangling pointer. -/
def c_str (strings : Heap String) (p : Option Ptr) : Option (Option String) :=
  match p with
  | none => some none
  | some a => (heap_read strings a).map some

/-- The source function `_is_default_selector_set`. -/
def _is_default_selector_set {Sel : Type} (self : AddContextualData Sel) : Bool :=
  self.default_selector != none

/-- The source function `_add_context_data_to_message`. -/
def _add_context_data_to_message (msg : LogMessage) (record : ContextualDataRecord) :
    LogMessage :=
  log_msg_set_value_by_name msg record.name record.value

/-- The source function `_process`: the outcome flag and the record afterwards. -/
def _process {Sel : Type} (env : Env Sel) (w : World) (self : AddContextualData Sel)
    (msg : LogMessage) : Option (Bool × LogMessage) :=
  let msg := log_msg_make_writable msg
  let resolved_selector := env.selector_resolve self.selector msg
  match heap_read w.dbs self.context_info_db with
  | none => none
  | some db =>
    let selector : Option (Option String) :=
      if !context_info_db_contains db resolved_selector && _is_default_selector_set self then
        c_str w.strings self.default_selector
      else
        some resolved_selector
    match selector with
    | none => none
    | some none => some (true, msg)
    | some (some key) =>
      some (true, context_info_db_foreach_record db (some key) _add_context_data_to_message msg)

/-! ## Configuration setters -/

/-- The glib function `g_strdup`: a fresh copy of the string, NULL for NULL. -/
def g_strdup (strings : Heap String) (s : Option String) : Heap String × Option Ptr :=
  match s with
  | none => (strings, none)
  | some v => ((heap_alloc strings v).1, some (heap_alloc strings v).2)

/-- The glib function `g_free`: release the string, no-op for NULL. -/
def g_free (strings : Heap String) (p : Option Ptr) : Heap String :=
  match p with
  | none => strings
  | some a => heap_free strings a

/-- The source function `add_contextual_data_set_filename`. -/
def add_contextual_data_set_filename {Sel : Type} (w : World) (self : AddContextualData Sel)
    (filename : Option String) : World × AddContextualData Sel :=
  let strings := g_free w.strings self.filename
  let dup := g_strdup strings filename
  ({ w with strings := dup.1 }, { self with filename := dup.2 })

/-- The source function `add_contextual_data_set_prefix`. -/
def add_contextual_data_set_prefix {Sel : Type} (w : World) (self : AddContextualData Sel)
    (pfx : Option String) : World × AddContextualData Sel :=
  let strings := g_free w.strings self.prefix_
  let dup := g_strdup strings pfx
  ({ w with strings := dup.1 }, { self with prefix_ := dup.2 })

/-- The source function `add_contextual_data_set_database_default_selector`. -/
def add_contextual_data_set_database_default_selector {Sel : Type} (w : World)
    (self : AddContextualData Sel) (default_selector : Option String) :
    World × AddContextualData Sel :=
  let strings := g_free w.strings self.default_selector
  let dup := g_strdup strings default_selector
  ({ w with strings := dup.1 }, { self with default_selector := dup.2 })

/-- The source function `add_contextual_data_set_selector`. -/
def add_contextual_data_set_selector {Sel : Type} (self : AddContextualData Sel)
    (selector : Option Sel) : AddContextualData Sel :=
  { self with selector := selector }

/-! ## Construction and clone -/

/-- The source function `add_contextual_data_parser_new`: `g_new0` zeroes the
struct, a fresh database is created. -/
def add_contextual_data_parser_new {Sel : Type} (w : World) : World × AddContextualData Sel :=
  let a := heap_alloc w.dbs context_info_db_new
  ({ w with dbs := a.1 },
   { context_info_db := a.2, selector := none, default_selector := none,
     filename := none, prefix_ := none })

/-- The source function `_replace_context_info_db`: the heap and the new value of `*old_db`. -/
def _replace_context_info_db (dbs : Heap ContextInfoDB) (old_db : Ptr) (new_db : Ptr) :
    Heap ContextInfoDB × Ptr :=
  context_info_db_ref (context_info_db_unref dbs old_db) new_db

/-- The source function `_clone`. The strings handed to the setters are read
through the original's pointers. The template of the host's `super` part
(`log_parser_set_template`) is outside the model. -/
def _clone {Sel : Type} (env : Env Sel) (w : World) (self : AddContextualData Sel) :
    Option (World × AddContextualData Sel) :=
  let n : World × AddContextualData Sel := add_contextual_data_parser_new w
  let r := _replace_context_info_db n.1.dbs n.2.context_info_db self.context_info_db
  let w1 : World := { n.1 with dbs := r.1 }
  let cloned : AddContextualData Sel := { n.2 with context_info_db := r.2 }
  match c_str w1.strings self.prefix_ with
  | none => none
  | some pfx =>
    let s1 := add_contextual_data_set_prefix w1 cloned pfx
    match c_str s1.1.strings self.filename with
    | none => none
    | some filename =>
      let s2 := add_contextual_data_set_filename s1.1 s1.2 filename
      match c_str s2.1.strings self.default_selector with
      | none => none
      | some default_selector =>
        let s3 := add_contextual_data_set_database_default_selector s2.1 s2.2 default_selector
        some (s3.1, { s3.2 with selector := env.selector_clone self.selector })

/-- The source function `_free`: the world after the stage is released. -/
def _free {Sel : Type} (w : World) (self : AddContextualData Sel) : World :=
  let dbs := context_info_db_unref w.dbs self.context_info_db
  let strings := g_free w.strings self.filename
  let strings := g_free strings self.prefix_
  let strings := g_free strings self.default_selector
  { strings := strings, dbs := dbs }

/-! ## Loading and initialisation -/

/-- What `_init` does to its collaborators, in the order it does it. -/
inductive Event where
  | msg_error (text : String)
  | scanner_new (type : Option String)
  | scanner_free
  | file_open (path : String)
  | file_close
  | db_import
  | selector_init (ordered_selectors : List String)
  | parser_init
  deriving DecidableEq, Repr

/-- The source function `_is_relative_path`: `filename[0]` is the terminating
NUL for the empty string. -/
def _is_relative_path (filename : String) : Bool :=
  filename.data.headD (Char.ofNat 0) != '/'

/-- The source function `_complete_relative_path_with_config_path`. -/
def _complete_relative_path_with_config_path {Sel : Type} (env : Env Sel) (filename : String) :
    String :=
  env.g_build_filename env.sysconfdir filename

/-- The source function `_open_data_file`: the stream (NULL when the open
failed) and the paths handed to `fopen`. -/
def _open_data_file {Sel : Type} (env : Env Sel) (filename : String) :
    Option FILE × List Event :=
  if _is_relative_path filename then
    let absolute_path := _complete_relative_path_with_config_path env filename
    (env.fopen absolute_path, [Event.file_open absolute_path])
  else
    (env.fopen filename, [Event.file_open filename])

/-- The string behind a pointer the caller has checked to be non-NULL. -/
def c_str_nonnull (strings : Heap String) (p : Option Ptr) : Option String :=
  match p with
  | none => none
  | some a => heap_read strings a

/-- The source function `_get_scanner`. -/
def _get_scanner {Sel : Type} (env : Env Sel) (w : World) (self : AddContextualData Sel) :
    Option (Option ContextualDataRecordScanner × List Event) :=
  match c_str_nonnull w.strings self.filename with
  | none => none
  | some filename =>
    let type := env.get_filename_extension filename
    match env.create_contextual_data_record_scanner_by_type type with
    | none => some (none, [Event.scanner_new type, Event.msg_error "Unknown file extension"])
    | some scanner =>
      match c_str w.strings self.prefix_ with
      | none => none
      | some pfx =>
        some (some ( contextual_data_record_scanner_set_name_prefix scanner pfx),
              [Event.scanner_new type])

/-- The source function `_load_context_info_db`. -/
def _load_context_info_db {Sel : Type} (env : Env Sel) (w : World)
    (self : AddContextualData Sel) : Option (Bool × World × List Event) :=
  match _get_scanner env w self with
  | none => none
  | some (none, t1) => some (false, w, t1)
  | some (some scanner, t1) =>
    match c_str_nonnull w.strings self.filename with
    | none => none
    | some filename =>
      let o := _open_data_file env filename
      match o.1 with
      | none =>
        some (false, w,
          t1 ++ o.2 ++ [Event.msg_error "Error loading add_contextual_data database",
                        Event.scanner_free])
      | some f =>
        match heap_read w.dbs self.context_info_db with
        | none => none
        | some db =>
          let imp := env.context_info_db_import db f scanner
          let tag_db_loaded := imp.1
          let w1 : World := { w with dbs := heap_write w.dbs self.context_info_db imp.2 }
          let t := t1 ++ o.2 ++ [Event.db_import, Event.scanner_free, Event.file_close]
          if !tag_db_loaded then
            some (false, w1,
              t ++ [Event.msg_error "Error while parsing add_contextual_data database"])
          else
            some (true, w1, t)

/-- The source function `_init_context_info_db`. -/
def _init_context_info_db {Sel : Type} (env : Env Sel) (w : World)
    (self : AddContextualData Sel) : Option (Bool × World × List Event) :=
  if self.filename == none then
    some (false, w, [Event.msg_error "No database file set."])
  else
    match heap_read w.dbs self.context_info_db with
    | none => none
    | some db =>
      if !context_info_db_is_loaded db then
        match _load_context_info_db env w self with
        | none => none
        | some (loaded, w1, t) =>
          if !loaded then
            some (false, w1, t ++ [Event.msg_error "Failed to load the database file."])
          else
            some (true, w1, t)
      else
        some (true, w, [])

/-- The source function `_init_selector`. -/
def _init_selector {Sel : Type} (env : Env Sel) (w : World) (self : AddContextualData Sel) :
    Option (Bool × List Event) :=
  match heap_read w.dbs self.context_info_db with
  | none => none
  | some db =>
    let ordered_selectors := context_info_db_ordered_selectors db
    some (env.selector_init self.selector ordered_selectors,
          [Event.selector_init ordered_selectors])

/-- The source function `_init`: the outcome, the world afterwards and the
trace of collaborator calls. -/
def _init {Sel : Type} (env : Env Sel) (w : World) (self : AddContextualData Sel) :
    Option (Bool × World × List Event) :=
  match _init_context_info_db env w self with
  | none => none
  | some (false, w1, t1) => some (false, w1, t1)
  | some (true, w1, t1) =>
    match _init_selector env w1 self with
    | none => none
    | some (false, t2) => some (false, w1, t1 ++ t2)
    | some (true, t2) =>
      if !env.log_parser_init_method then
        some (false, w1, t1 ++ t2 ++ [Event.parser_init])
      else
        some (true, w1, t1 ++ t2 ++ [Event.parser_init])

/-! ## The specification's vocabulary -/

/-- The effective key of the claims: the resolved key when the database
contains it or no default selector is configured, the default selector otherwise. -/
def effective_key (db : ContextInfoDB) (resolved : Option String) (dflt : Option String) :
    Option String :=
  if context_info_db_contains db resolved || dflt.isNone then resolved else dflt

/-- The contextual records stored under a key, in insertion order; nothing is
stored under the absent key. -/
def records_under (db : ContextInfoDB) (key : Option String) : List ContextualDataRecord :=
  match key with
  | none => []
  | some k => db.data.filter (fun r => r.selector = k)

/-- The specification's set-field(name, value) for one contextual record. -/
def set_field (msg : LogMessage) (r : ContextualDataRecord) : LogMessage :=
  log_msg_set_value_by_name msg r.name r.value

/-- The path the specification says is opened: the filename verbatim when its
first character is a slash, the filename joined onto the configuration
directory otherwise. -/
def resolved_path {Sel : Type} (env : Env Sel) (filename : String) : String :=
  if filename.data.head? = some '/' then filename
  else env.g_build_filename env.sysconfdir filename

/-- The specification's "loading succeeds": a scanner exists for the filename's
extension, the file opens, and the import succeeds. -/
def load_succeeds {Sel : Type} (env : Env Sel) (filename : String) (pfx : Option String)
    (db : ContextInfoDB) : Bool :=
  match env.create_contextual_data_record_scanner_by_type (env.get_filename_extension filename) with
  | none => false
  | some scanner =>
    match env.fopen (resolved_path env filename) with
    | none => false
    | some f =>
      (env.context_info_db_import db f
        ( contextual_data_record_scanner_set_name_prefix scanner pfx)).1

/-- The specification's first two conditions of a successful initialisation: the
filename is set, and the database is already loaded or loading it succeeds. -/
def database_ready {Sel : Type} (env : Env Sel) (fname : Option String) (pfx : Option String)
    (db : ContextInfoDB) : Bool :=
  match fname with
  | none => false
  | some fn => context_info_db_is_loaded db || load_succeeds env fn pfx db

/-- The three configuration strings of a stage as the heap holds them:
filename, prefix, default selector. -/
def stage_config {Sel : Type} (w : World) (self : AddContextualData Sel) :
    Option (Option String) × Option (Option String) × Option (Option String) :=
  (c_str w.strings self.filename, c_str w.strings self.prefix_,
   c_str w.strings self.default_selector)

/-- A configuration mutation: which setter is called, and with which string. -/
inductive ConfigSetter where
  | set_prefix (v : Option String)
  | set_filename (v : Option String)
  | set_default_selector (v : Option String)
  deriving DecidableEq, Repr

/-- Run the setter named by a `ConfigSetter` on a stage. -/
def ConfigSetter.run {Sel : Type} (m : ConfigSetter) (w : World) (self : AddContextualData Sel) :
    World × AddContextualData Sel :=
  match m with
  | ConfigSetter.set_prefix v => add_contextual_data_set_prefix w self v
  | ConfigSetter.set_filename v => add_contextual_data_set_filename w self v
  | ConfigSetter.set_default_selector v =>
    add_contextual_data_set_database_default_selector w self v

/-- Whether a mutation leaves the default selector alone. -/
def ConfigSetter.keeps_default : ConfigSetter → Bool
  | ConfigSetter.set_default_selector _ => false
  | _ => true

/-- Whether an event is a load step: scanner construction, file open or import. -/
def Event.is_load_step : Event → Bool
  | Event.scanner_new _ => true
  | Event.file_open _ => true
  | Event.db_import => true
  | _ => false

/-! ## Concrete stages used to exercise the theorems -/

/-- A collaborator set: constant selectors (the resolver is its own key), a
`csv` scanner, one readable file holding two records for `host1`. -/
def ex_env : Env String where
  selector_resolve := fun sel _ => sel
  selector_init := fun sel _ => sel.isSome
  selector_clone := fun sel => sel
  sysconfdir := "/etc/syslog-ng"
  g_build_filename := fun dir file => dir ++ "/" ++ file
  get_filename_extension := fun _ => some "csv"
  create_contextual_data_record_scanner_by_type := fun type =>
    if type = some "csv" then some { scanner_type := type, name_prefix := none } else none
  fopen := fun path => if path = "/etc/syslog-ng/db.csv" then some "host1" else none
  context_info_db_import := fun db _ _ =>
    (true, { db with is_loaded := true,
                     data := [{ selector := "host1", name := "datacenter", value := "dc1" },
                              { selector := "host1", name := "owner", value := "alice" }] })
  log_parser_init_method := true

/-- A loaded database: two records under `host1`, two under `S` with the same name. -/
def ex_db : ContextInfoDB where
  ref_cnt := 1
  is_loaded := true
  data := [{ selector := "host1", name := "datacenter", value := "dc1" },
           { selector := "S", name := "owner", value := "alice" },
           { selector := "host1", name := "owner", value := "bob" },
           { selector := "S", name := "owner", value := "carol" }]

/-- A world holding `ex_db` and the strings of `ex_stage`. -/
def ex_world : World where
  strings := [some "db.csv", some "host1", some "ctx."]
  dbs := [some ex_db]

/-- A stage over `ex_db`: the resolver yields `host2`, the default selector is `host1`. -/
def ex_stage : AddContextualData String where
  context_info_db := 0
  selector := some "host2"
  default_selector := some 1
  filename := some 0
  prefix_ := some 2

/-- A stage over `ex_db` whose resolver yields `host1` and that has no default selector. -/
def ex_stage_direct : AddContextualData String where
  context_info_db := 0
  selector := some "host1"
  default_selector := none
  filename := some 0
  prefix_ := none

/-- A stage over `ex_db` whose resolver yields `host2` and that has no default selector. -/
def ex_stage_absent : AddContextualData String where
  context_info_db := 0
  selector := some "host2"
  default_selector := none
  filename := some 0
  prefix_ := none

/-- A database that stores a record under the empty-string selector. -/
def ex_db_empty_key : ContextInfoDB where
  ref_cnt := 1
  is_loaded := true
  data := [{ selector := "", name := "owner", value := "alice" }]

/-- A world holding `ex_db_empty_key`. -/
def ex_world_empty_key : World where
  strings := [some "db.csv"]
  dbs := [some ex_db_empty_key]

/-- A stage over `ex_db_empty_key` whose resolver yields the empty string. -/
def ex_stage_empty_key : AddContextualData String where
  context_info_db := 0
  selector := some ""
  default_selector := none
  filename := some 0
  prefix_ := none

/-- A freshly constructed, configured stage: database created but not loaded. -/
def ex_world_fresh : World where
  strings := [some "db.csv"]
  dbs := [some context_info_db_new]

/-- The stage of `ex_world_fresh`. -/
def ex_stage_fresh : AddContextualData String where
  context_info_db := 0
  selector := some "host1"
  default_selector := none
  filename := some 0
  prefix_ := none

/-! ## Lemmas: record fields -/

theorem get_set_same (msg : LogMessage) (name value : String) :
    log_msg_get_value_by_name (log_msg_set_value_by_name msg name value) name = some value := by
  induction msg with
  | nil => simp [log_msg_set_value_by_name, log_msg_get_value_by_name]
  | cons hd tl ih =>
    obtain ⟨n, v⟩ := hd
    by_cases h : n = name
    · simp [log_msg_set_value_by_name, log_msg_get_value_by_name, h]
    · simp [log_msg_set_value_by_name, log_msg_get_value_by_name, h, ih]

theorem get_set_other (msg : LogMessage) (name value other : String) (h : name ≠ other) :
    log_msg_get_value_by_name (log_msg_set_value_by_name msg name value) other
      = log_msg_get_value_by_name msg other := by
  induction msg with
  | nil => simp [log_msg_set_value_by_name, log_msg_get_value_by_name, h]
  | cons hd tl ih =>
    obtain ⟨n, v⟩ := hd
    by_cases hn : n = name
    · subst hn
      simp [log_msg_set_value_by_name, log_msg_get_value_by_name, h]
    · by_cases ho : n = other
      · subst ho
        simp [log_msg_set_value_by_name, log_msg_get_value_by_name, hn]
      · simp [log_msg_set_value_by_name, log_msg_get_value_by_name, hn, ho, ih]

/-- Folding set-field over records none of which names `field` keeps that field. -/
theorem get_foldl_set_field_untouched (rs : List ContextualDataRecord) (msg : LogMessage)
    (field : String) (h : ∀ r ∈ rs, r.name ≠ field) :
    log_msg_get_value_by_name (rs.foldl set_field msg) field
      = log_msg_get_value_by_name msg field := by
  induction rs generalizing msg with
  | nil => rfl
  | cons r rest ih =>
    have hr : r.name ≠ field := h r (List.mem_cons_self _ _)
    have hrest : ∀ x ∈ rest, x.name ≠ field := fun x hx => h x (List.mem_cons_of_mem _ hx)
    simp only [List.foldl_cons]
    rw [ih _ hrest, set_field, get_set_other _ _ _ _ hr]

/-- Last write wins: after folding set-field over `before ++ r :: after`, where no
record of `after` has the name of `r`, the field holds the value of `r`. -/
theorem get_foldl_set_field_last (before after : List ContextualDataRecord)
    (r : ContextualDataRecord) (msg : LogMessage) (h : ∀ x ∈ after, x.name ≠ r.name) :
    log_msg_get_value_by_name ((before ++ r :: after).foldl set_field msg) r.name
      = some r.value := by
  rw [List.foldl_append, List.foldl_cons, get_foldl_set_field_untouched _ _ _ h, set_field,
    get_set_same]

/-! ## Lemmas: database lookups -/

/-- The visiting loop is a fold over the records stored under the key. -/
theorem foreach_record_loop_eq_foldl {α : Type} (key : String)
    (callback : α → ContextualDataRecord → α) (data : List ContextualDataRecord) (arg : α) :
    foreach_record_loop key callback data arg
      = (data.filter (fun r => r.selector = key)).foldl callback arg := by
  induction data generalizing arg with
  | nil => rfl
  | cons r rest ih =>
    by_cases h : r.selector = key
    · simp [foreach_record_loop, h, ih]
    · simp [foreach_record_loop, h, ih]

theorem foreach_record_eq_foldl {α : Type} (db : ContextInfoDB) (key : Option String)
    (callback : α → ContextualDataRecord → α) (arg : α) :
    context_info_db_foreach_record db key callback arg
      = (records_under db key).foldl callback arg := by
  cases key with
  | none => rfl
  | some k => simp [context_info_db_foreach_record, records_under, foreach_record_loop_eq_foldl]

/-- A selector the database does not contain has no records stored under it. -/
theorem records_under_of_not_contains (db : ContextInfoDB) (key : Option String)
    (h : context_info_db_contains db key = false) : records_under db key = [] := by
  cases key with
  | none => rfl
  | some k =>
    simp only [context_info_db_contains, List.any_eq_false, decide_eq_true_eq] at h
    simp only [records_under, List.filter_eq_nil_iff, decide_eq_true_eq]
    exact h

/-- The default selector as `_process` reads it, from the value the heap holds. -/
theorem default_selector_cases {Sel : Type} (w : World) (self : AddContextualData Sel)
    (dflt : Option String) (h : c_str w.strings self.default_selector = some dflt) :
    _is_default_selector_set self = dflt.isSome := by
  unfold _is_default_selector_set
  cases hp : self.default_selector with
  | none =>
    rw [hp] at h
    simp only [c_str, Option.some.injEq] at h
    subst h
    rfl
  | some a =>
    rw [hp] at h
    simp only [c_str, Option.map_eq_some'] at h
    obtain ⟨v, _, hv⟩ := h
    subst hv
    rfl

/-- The function `_process` in closed form: it succeeds and folds set-field over
the records under the effective key. -/
theorem process_eq {Sel : Type} (env : Env Sel) (w : World) (self : AddContextualData Sel)
    (msg : LogMessage) (db : ContextInfoDB) (dflt : Option String)
    (hdb : heap_read w.dbs self.context_info_db = some db)
    (hdef : c_str w.strings self.default_selector = some dflt) :
    _process env w self msg
      = some (true,
          (records_under db
            (effective_key db (env.selector_resolve self.selector msg) dflt)).foldl
            set_field msg) := by
  have hset := default_selector_cases w self dflt hdef
  unfold _process
  simp only [hdb, log_msg_make_writable, hset, effective_key]
  cases hc : context_info_db_contains db (env.selector_resolve self.selector msg) with
  | true =>
    cases hr : env.selector_resolve self.selector msg with
    | none => simp [records_under]
    | some k =>
      simp [foreach_record_eq_foldl]
      rfl
  | false =>
    cases dflt with
    | none =>
      cases hr : env.selector_resolve self.selector msg with
      | none => simp [records_under]
      | some k =>
        simp [foreach_record_eq_foldl]
        rfl
    | some d =>
      simp only [Option.isSome_some, Bool.not_false, Bool.and_self, ↓reduceIte, hdef,
        Option.isNone_some, Bool.or_self, Bool.false_eq_true]
      simp [foreach_record_eq_foldl]
      rfl

/-! ## Lemmas: heaps -/

theorem heap_read_lt {α : Type} (h : Heap α) (p : Ptr) (x : α) (hx : heap_read h p = some x) :
    p < h.length := by
  by_contra hlt
  have : h[p]? = none := List.getElem?_eq_none (Nat.le_of_not_lt hlt)
  simp [heap_read, this] at hx

theorem heap_read_write_same {α : Type} (h : Heap α) (p : Ptr) (v : α) (hp : p < h.length) :
    heap_read (heap_write h p v) p = some v := by
  simp [heap_read, heap_write, List.getElem?_set_self, hp]

theorem heap_read_free_ne {α : Type} (h : Heap α) (p q : Ptr) (hne : q ≠ p) :
    heap_read (heap_free h q) p = heap_read h p := by
  simp [heap_read, heap_free, List.getElem?_set_ne hne]

theorem heap_read_alloc_new {α : Type} (h : Heap α) (v : α) :
    heap_read (heap_alloc h v).1 (heap_alloc h v).2 = some v := by
  simp [heap_read, heap_alloc]

theorem heap_read_alloc_old {α : Type} (h : Heap α) (p : Ptr) (v : α) (hp : p < h.length) :
    heap_read (heap_alloc h v).1 p = heap_read h p := by
  simp [heap_read, heap_alloc, List.getElem?_append_left hp]

/-! ## Lemmas: loading and initialisation -/

theorem is_relative_path_iff (filename : String) :
    _is_relative_path filename = !decide (filename.data.head? = some '/') := by
  unfold _is_relative_path
  cases h : filename.data with
  | nil => simp
  | cons c cs =>
    simp only [List.headD_cons, List.head?_cons, Option.some.injEq, bne]
    rfl

theorem open_data_file_eq {Sel : Type} (env : Env Sel) (filename : String) :
    _open_data_file env filename
      = (env.fopen (resolved_path env filename),
         [Event.file_open (resolved_path env filename)]) := by
  unfold _open_data_file resolved_path _complete_relative_path_with_config_path
  rw [is_relative_path_iff]
  by_cases h : filename.data.head? = some '/'
  · simp [h]
  · simp [h]

/-- A stage whose filename is set and whose database is loaded: `_init` goes
straight to the resolver and the host. -/
theorem init_loaded_eq {Sel : Type} (env : Env Sel) (w : World) (self : AddContextualData Sel)
    (db : ContextInfoDB)
    (hdb : heap_read w.dbs self.context_info_db = some db)
    (hfn : self.filename ≠ none)
    (hl : context_info_db_is_loaded db = true) :
    _init env w self
      = some (env.selector_init self.selector (context_info_db_ordered_selectors db)
                && env.log_parser_init_method,
              w,
              Event.selector_init (context_info_db_ordered_selectors db)
                :: (if env.selector_init self.selector (context_info_db_ordered_selectors db)
                    then [Event.parser_init] else [])) := by
  have h1 : _init_context_info_db env w self = some (true, w, []) := by
    unfold _init_context_info_db
    simp [hfn, hdb, hl]
  unfold _init
  simp only [h1, _init_selector, hdb]
  cases hs : env.selector_init self.selector (context_info_db_ordered_selectors db) with
  | false => simp
  | true =>
    cases hh : env.log_parser_init_method <;> simp

/-- The function `_load_context_info_db` in closed form. -/
theorem load_eq {Sel : Type} (env : Env Sel) (w : World) (self : AddContextualData Sel)
    (db : ContextInfoDB) (fn : String) (pfx : Option String)
    (hdb : heap_read w.dbs self.context_info_db = some db)
    (hf : c_str_nonnull w.strings self.filename = some fn)
    (hp : c_str w.strings self.prefix_ = some pfx) :
    ∃ w1 t db1, _load_context_info_db env w self = some (load_succeeds env fn pfx db, w1, t)
      ∧ heap_read w1.dbs self.context_info_db = some db1
      ∧ (∀ path, Event.file_open path ∈ t → path = resolved_path env fn) := by
  unfold _load_context_info_db _get_scanner load_succeeds
  simp only [hf, hp, open_data_file_eq]
  cases hs : env.create_contextual_data_record_scanner_by_type (env.get_filename_extension fn) with
  | none => exact ⟨w, _, db, rfl, hdb, by simp⟩
  | some scanner =>
    cases ho : env.fopen (resolved_path env fn) with
    | none => exact ⟨w, _, db, rfl, hdb, by simp⟩
    | some f =>
      simp only [hdb]
      cases hi : (env.context_info_db_import db f
          ( contextual_data_record_scanner_set_name_prefix scanner pfx)).1 with
      | false =>
        exact ⟨_, _, _, rfl, heap_read_write_same _ _ _ (heap_read_lt _ _ _ hdb), by simp⟩
      | true =>
        exact ⟨_, _, _, rfl, heap_read_write_same _ _ _ (heap_read_lt _ _ _ hdb), by simp⟩

/-- The function `_init_context_info_db` in closed form. -/
theorem init_context_info_db_eq {Sel : Type} (env : Env Sel) (w : World)
    (self : AddContextualData Sel) (db : ContextInfoDB) (fname pfx : Option String)
    (hdb : heap_read w.dbs self.context_info_db = some db)
    (hf : c_str w.strings self.filename = some fname)
    (hp : c_str w.strings self.prefix_ = some pfx) :
    ∃ w1 t db1, _init_context_info_db env w self = some (database_ready env fname pfx db, w1, t)
      ∧ heap_read w1.dbs self.context_info_db = some db1
      ∧ (fname = none → w1 = w ∧ t = [Event.msg_error "No database file set."])
      ∧ (∀ fn path, fname = some fn → Event.file_open path ∈ t → path = resolved_path env fn) := by
  unfold _init_context_info_db
  cases hptr : self.filename with
  | none =>
    rw [hptr] at hf
    simp only [c_str, Option.some.injEq] at hf
    subst hf
    exact ⟨w, _, db, rfl, hdb, fun _ => ⟨rfl, rfl⟩, by simp⟩
  | some a =>
    rw [hptr] at hf
    simp only [c_str, Option.map_eq_some'] at hf
    obtain ⟨fn, hread, hfn⟩ := hf
    subst hfn
    have hnn : c_str_nonnull w.strings self.filename = some fn := by
      rw [hptr]
      exact hread
    simp only [hdb, database_ready]
    cases hl : context_info_db_is_loaded db with
    | true => exact ⟨w, [], db, by simp, hdb, by simp, by simp⟩
    | false =>
      obtain ⟨w1, t, db1, hload, hdb1, hpath⟩ := load_eq env w self db fn pfx hdb hnn hp
      simp only [hload]
      cases hs : load_succeeds env fn pfx db with
      | true =>
        refine ⟨w1, t, db1, by simp, hdb1, by simp, ?_⟩
        intro fn2 path h2 hmem
        simp only [Option.some.injEq] at h2
        subst h2
        exact hpath path hmem
      | false =>
        refine ⟨w1, t ++ [Event.msg_error "Failed to load the database file."], db1, by simp,
          hdb1, by simp, ?_⟩
        intro fn2 path h2 hmem
        simp only [Option.some.injEq] at h2
        subst h2
        simp only [List.mem_append, List.mem_singleton, reduceCtorEq, or_false] at hmem
        exact hpath path hmem

/-- The function `_init` in closed form: outcome, database afterwards, trace. -/
theorem init_eq {Sel : Type} (env : Env Sel) (w : World) (self : AddContextualData Sel)
    (db : ContextInfoDB) (fname pfx : Option String)
    (hdb : heap_read w.dbs self.context_info_db = some db)
    (hf : c_str w.strings self.filename = some fname)
    (hp : c_str w.strings self.prefix_ = some pfx) :
    ∃ w1 t db1,
      _init env w self
        = some (database_ready env fname pfx db
                  && env.selector_init self.selector (context_info_db_ordered_selectors db1)
                  && env.log_parser_init_method, w1, t)
      ∧ heap_read w1.dbs self.context_info_db = some db1
      ∧ (fname = none → w1 = w ∧ t = [Event.msg_error "No database file set."])
      ∧ (∀ fn path, fname = some fn → Event.file_open path ∈ t → path = resolved_path env fn) := by
  obtain ⟨w1, t, db1, h1, hdb1, hnone, hpath⟩ :=
    init_context_info_db_eq env w self db fname pfx hdb hf hp
  unfold _init
  simp only [h1]
  cases hr : database_ready env fname pfx db with
  | false => exact ⟨w1, t, db1, by simp, hdb1, hnone, hpath⟩
  | true =>
    have hsome : fname ≠ none := by
      intro h
      subst h
      simp [database_ready] at hr
    simp only [_init_selector, hdb1]
    cases hs : env.selector_init self.selector (context_info_db_ordered_selectors db1) with
    | false =>
      refine ⟨w1, t ++ [Event.selector_init (context_info_db_ordered_selectors db1)], db1,
        by simp [hs], hdb1, fun h => absurd h hsome, ?_⟩
      intro fn path h2 hmem
      simp only [List.mem_append, List.mem_singleton, reduceCtorEq, or_false] at hmem
      exact hpath fn path h2 hmem
    | true =>
      cases hh : env.log_parser_init_method with
      | false =>
        refine ⟨w1, t ++ [Event.selector_init (context_info_db_ordered_selectors db1),
          Event.parser_init], db1, by simp [hs], hdb1, fun h => absurd h hsome, ?_⟩
        intro fn path h2 hmem
        simp only [List.mem_append, List.mem_cons, List.mem_singleton, reduceCtorEq,
          List.mem_nil_iff, or_false] at hmem
        exact hpath fn path h2 hmem
      | true =>
        refine ⟨w1, t ++ [Event.selector_init (context_info_db_ordered_selectors db1),
          Event.parser_init], db1, by simp [hs], hdb1, fun h => absurd h hsome, ?_⟩
        intro fn path h2 hmem
        simp only [List.mem_append, List.mem_cons, List.mem_singleton, reduceCtorEq,
          List.mem_nil_iff, or_false] at hmem
        exact hpath fn path h2 hmem

/-! ## Lemmas: strings, setters and clone -/

theorem c_str_lt (h : Heap String) (a : Ptr) (v : Option String)
    (hv : c_str h (some a) = some v) : a < h.length := by
  simp only [c_str, Option.map_eq_some'] at hv
  obtain ⟨s, hs, _⟩ := hv
  exact heap_read_lt h a s hs

theorem c_str_g_free (h : Heap String) (q p : Option Ptr) (v : Option String)
    (hv : c_str h p = some v) (hne : ∀ a b, q = some a → p = some b → a ≠ b) :
    c_str (g_free h q) p = some v := by
  cases q with
  | none => exact hv
  | some a =>
    cases p with
    | none => exact hv
    | some b =>
      simp only [c_str, g_free] at hv ⊢
      rw [heap_read_free_ne _ _ _ (hne a b rfl rfl)]
      exact hv

theorem c_str_g_strdup_old (h : Heap String) (x : Option String) (p : Option Ptr)
    (v : Option String) (hv : c_str h p = some v) : c_str (g_strdup h x).1 p = some v := by
  cases x with
  | none => exact hv
  | some s =>
    cases p with
    | none => exact hv
    | some b =>
      have hb := c_str_lt h b v hv
      simp only [c_str, g_strdup] at hv ⊢
      rw [heap_read_alloc_old _ _ _ hb]
      exact hv

theorem c_str_g_strdup_new (h : Heap String) (x : Option String) :
    c_str (g_strdup h x).1 (g_strdup h x).2 = some x := by
  cases x with
  | none => rfl
  | some s => simp [c_str, g_strdup, heap_read_alloc_new]

theorem g_strdup_fresh (h : Heap String) (x : Option String) (a : Ptr)
    (ha : (g_strdup h x).2 = some a) : h.length ≤ a := by
  cases x with
  | none => simp [g_strdup] at ha
  | some s =>
    simp only [g_strdup, heap_alloc, Option.some.injEq] at ha
    exact Nat.le_of_eq ha

theorem g_strdup_ptr (h : Heap String) (x : Option String) (a : Ptr)
    (ha : (g_strdup h x).2 = some a) : a = h.length ∧ a < (g_strdup h x).1.length := by
  cases x with
  | none => simp [g_strdup] at ha
  | some s =>
    simp only [g_strdup, heap_alloc, Option.some.injEq] at ha
    subst ha
    simp [g_strdup, heap_alloc]

theorem g_strdup_length (h : Heap String) (x : Option String) :
    h.length ≤ (g_strdup h x).1.length := by
  cases x with
  | none => simp [g_strdup]
  | some s => simp [g_strdup, heap_alloc]

theorem setter_frame {Sel : Type} (m : ConfigSetter) (w : World) (s : AddContextualData Sel)
    (p : Option Ptr) (v : Option String)
    (hv : c_str w.strings p = some v)
    (hne : ∀ a b, (s.filename = some a ∨ s.prefix_ = some a ∨ s.default_selector = some a) →
      p = some b → a ≠ b) :
    c_str (m.run w s).1.strings p = some v ∧ (m.run w s).1.dbs = w.dbs := by
  cases m with
  | set_prefix x =>
    refine ⟨?_, rfl⟩
    exact c_str_g_strdup_old _ _ _ _
      (c_str_g_free _ _ _ _ hv (fun a b ha hb => hne a b (Or.inr (Or.inl ha)) hb))
  | set_filename x =>
    refine ⟨?_, rfl⟩
    exact c_str_g_strdup_old _ _ _ _
      (c_str_g_free _ _ _ _ hv (fun a b ha hb => hne a b (Or.inl ha) hb))
  | set_default_selector x =>
    refine ⟨?_, rfl⟩
    exact c_str_g_strdup_old _ _ _ _
      (c_str_g_free _ _ _ _ hv (fun a b ha hb => hne a b (Or.inr (Or.inr ha)) hb))

theorem replace_fresh_db (dbs : Heap ContextInfoDB) (sp : Ptr) (db : ContextInfoDB)
    (hdb : heap_read dbs sp = some db) :
    (_replace_context_info_db (heap_alloc dbs context_info_db_new).1
        (heap_alloc dbs context_info_db_new).2 sp).2 = sp
    ∧ heap_read (_replace_context_info_db (heap_alloc dbs context_info_db_new).1
        (heap_alloc dbs context_info_db_new).2 sp).1 sp
        = some { db with ref_cnt := db.ref_cnt + 1 } := by
  have hlt := heap_read_lt dbs sp db hdb
  have hne : (heap_alloc dbs context_info_db_new).2 ≠ sp := Nat.ne_of_gt hlt
  have hun : context_info_db_unref (heap_alloc dbs context_info_db_new).1
      (heap_alloc dbs context_info_db_new).2
      = heap_free (heap_alloc dbs context_info_db_new).1 (heap_alloc dbs context_info_db_new).2 := by
    unfold context_info_db_unref
    rw [heap_read_alloc_new]
    simp [context_info_db_new]
  have hread : heap_read (heap_free (heap_alloc dbs context_info_db_new).1
      (heap_alloc dbs context_info_db_new).2) sp = some db := by
    rw [heap_read_free_ne _ _ _ hne, heap_read_alloc_old _ _ _ hlt, hdb]
  unfold _replace_context_info_db context_info_db_ref
  rw [hun, hread]
  refine ⟨rfl, ?_⟩
  apply heap_read_write_same
  simp only [heap_free, heap_alloc, List.length_set, List.length_append, List.length_singleton]
  exact Nat.lt_succ_of_lt hlt

theorem clone_eq {Sel : Type} (env : Env Sel) (w : World) (self : AddContextualData Sel)
    (db : ContextInfoDB) (f p d : Option String)
    (hdb : heap_read w.dbs self.context_info_db = some db)
    (hf : c_str w.strings self.filename = some f)
    (hp : c_str w.strings self.prefix_ = some p)
    (hd : c_str w.strings self.default_selector = some d) :
    ∃ w3 cloned, _clone env w self = some (w3, cloned)
      ∧ cloned.context_info_db = self.context_info_db
      ∧ cloned.selector = env.selector_clone self.selector
      ∧ heap_read w3.dbs self.context_info_db = some { db with ref_cnt := db.ref_cnt + 1 }
      ∧ stage_config w3 cloned = (some f, some p, some d)
      ∧ stage_config w3 self = (some f, some p, some d)
      ∧ (∀ a, (cloned.filename = some a ∨ cloned.prefix_ = some a
                ∨ cloned.default_selector = some a) → w.strings.length ≤ a)
      ∧ (∀ a, cloned.default_selector = some a →
          cloned.filename ≠ some a ∧ cloned.prefix_ ≠ some a) := by
  obtain ⟨hr2, hr1⟩ := replace_fresh_db w.dbs self.context_info_db db hdb
  have e2 : c_str (g_strdup w.strings p).1 self.filename = some f :=
    c_str_g_strdup_old _ _ _ _ hf
  have e3 : c_str (g_strdup (g_strdup w.strings p).1 f).1 self.default_selector = some d :=
    c_str_g_strdup_old _ _ _ _ (c_str_g_strdup_old _ _ _ _ hd)
  have l1 := g_strdup_length w.strings p
  have l2 := g_strdup_length (g_strdup w.strings p).1 f
  simp only [_clone, add_contextual_data_parser_new, add_contextual_data_set_prefix,
    add_contextual_data_set_filename, add_contextual_data_set_database_default_selector,
    g_free, hp, e2, e3]
  refine ⟨_, _, rfl, hr2, rfl, hr1, ?_, ?_, ?_, ?_⟩
  · simp only [stage_config, Prod.mk.injEq]
    refine ⟨?_, ?_, ?_⟩
    · exact c_str_g_strdup_old _ _ _ _ (c_str_g_strdup_new _ _)
    · exact c_str_g_strdup_old _ _ _ _ (c_str_g_strdup_old _ _ _ _ (c_str_g_strdup_new _ _))
    · exact c_str_g_strdup_new _ _
  · simp only [stage_config, Prod.mk.injEq]
    refine ⟨?_, ?_, ?_⟩
    · exact c_str_g_strdup_old _ _ _ _ (c_str_g_strdup_old _ _ _ _ e2)
    · exact c_str_g_strdup_old _ _ _ _ (c_str_g_strdup_old _ _ _ _ (c_str_g_strdup_old _ _ _ _ hp))
    · exact c_str_g_strdup_old _ _ _ _ e3
  · intro a ha
    rcases ha with ha | ha | ha
    · exact Nat.le_trans l1 (g_strdup_fresh _ _ _ ha)
    · exact g_strdup_fresh _ _ _ ha
    · exact Nat.le_trans l1 (Nat.le_trans l2 (g_strdup_fresh _ _ _ ha))
  · intro a ha
    have hge := g_strdup_fresh _ _ _ ha
    constructor
    · intro hb
      have := (g_strdup_ptr _ _ _ hb).2
      exact absurd hge (Nat.not_le_of_lt this)
    · intro hb
      have := (g_strdup_ptr _ _ _ hb).2
      exact absurd hge (Nat.not_le_of_lt (Nat.lt_of_lt_of_le this l2))

theorem effective_key_of_contains (db : ContextInfoDB) (r d : Option String)
    (h : context_info_db_contains db r = true) : effective_key db r d = r := by
  simp [effective_key, h]

/-- Processing on a stage other than the one a setter was run on. -/
theorem process_after_setter_other {Sel : Type} (env : Env Sel) (m : ConfigSetter) (w : World)
    (s o : AddContextualData Sel) (msg : LogMessage) (db : ContextInfoDB) (d : Option String)
    (hdb : heap_read w.dbs o.context_info_db = some db)
    (hd : c_str w.strings o.default_selector = some d)
    (hne : ∀ a b, (s.filename = some a ∨ s.prefix_ = some a ∨ s.default_selector = some a) →
      o.default_selector = some b → a ≠ b) :
    _process env (m.run w s).1 o msg
      = some (true,
          (records_under db (effective_key db (env.selector_resolve o.selector msg) d)).foldl
            set_field msg) := by
  obtain ⟨h1, h2⟩ := setter_frame m w s o.default_selector d hd hne
  exact process_eq env _ o msg db d (by rw [h2]; exact hdb) h1

/-- Processing on the stage a setter was run on. -/
theorem process_after_setter_own {Sel : Type} (env : Env Sel) (m : ConfigSetter) (w : World)
    (s : AddContextualData Sel) (msg : LogMessage) (db : ContextInfoDB) (d : Option String)
    (hdb : heap_read w.dbs s.context_info_db = some db)
    (hd : c_str w.strings s.default_selector = some d)
    (hown : ∀ a, s.default_selector = some a → s.filename ≠ some a ∧ s.prefix_ ≠ some a)
    (hm : m.keeps_default = true
      ∨ context_info_db_contains db (env.selector_resolve s.selector msg) = true) :
    _process env (m.run w s).1 (m.run w s).2 msg
      = some (true,
          (records_under db (effective_key db (env.selector_resolve s.selector msg) d)).foldl
            set_field msg) := by
  cases m with
  | set_prefix x =>
    have h1 : c_str (g_strdup (g_free w.strings s.prefix_) x).1 s.default_selector = some d :=
      c_str_g_strdup_old _ _ _ _
        (c_str_g_free _ _ _ _ hd (fun a b ha hb hab => (hown b hb).2 (hab ▸ ha)))
    exact process_eq env _ _ msg db d hdb h1
  | set_filename x =>
    have h1 : c_str (g_strdup (g_free w.strings s.filename) x).1 s.default_selector = some d :=
      c_str_g_strdup_old _ _ _ _
        (c_str_g_free _ _ _ _ hd (fun a b ha hb hab => (hown b hb).1 (hab ▸ ha)))
    exact process_eq env _ _ msg db d hdb h1
  | set_default_selector x =>
    have hc : context_info_db_contains db (env.selector_resolve s.selector msg) = true := by
      rcases hm with hm | hm
      · simp [ConfigSetter.keeps_default] at hm
      · exact hm
    have h1 : c_str (g_strdup (g_free w.strings s.default_selector) x).1
        (g_strdup (g_free w.strings s.default_selector) x).2 = some x := c_str_g_strdup_new _ _
    have h := process_eq env
      (add_contextual_data_set_database_default_selector w s x).1
      (add_contextual_data_set_database_default_selector w s x).2 msg db x hdb h1
    have hsel : (add_contextual_data_set_database_default_selector w s x).2.selector
        = s.selector := rfl
    rw [hsel, effective_key_of_contains _ _ _ hc] at h
    rw [effective_key_of_contains _ _ _ hc]
    exact h

/-! ## Per-record processing -/

/-- C1: for every stage, database and input record, `_process` returns success
and the resulting record is the input record after set-field(name, value) for
each contextual record stored under the effective key, in insertion order; the
effective key is the resolved key when the database contains it or no default
selector is configured, and the default selector otherwise. -/
theorem process_applies_records_under_effective_key {Sel : Type} (env : Env Sel) (w : World)
    (self : AddContextualData Sel) (msg : LogMessage) (db : ContextInfoDB)
    (dflt : Option String)
    (hdb : heap_read w.dbs self.context_info_db = some db)
    (hdef : c_str w.strings self.default_selector = some dflt) :
    _process env w self msg
      = some (true,
          (records_under db
            (effective_key db (env.selector_resolve self.selector msg) dflt)).foldl
            set_field msg) :=
  process_eq env w self msg db dflt hdb hdef

/-- Witness of C1: the resolver yields `host2`, absent from `ex_db`, the default
selector `host1` takes over, and the pre-existing field `owner` is overwritten. -/
theorem process_applies_records_under_effective_key_witness :
    _process ex_env ex_world ex_stage [("owner", "x")]
      = some (true, [("owner", "bob"), ("datacenter", "dc1")]) :=
  (process_applies_records_under_effective_key ex_env ex_world ex_stage [("owner", "x")]
    ex_db (some "host1") (by decide) (by decide)).trans (by decide)

/-- C2 (fallback determinism): when the database contains `A` and not `B`, a
stage whose resolver yields `B` and whose default selector is `A` produces the
same record as a stage whose resolver yields `A` directly. -/
theorem fallback_determinism {Sel : Type} (env : Env Sel) (w1 w2 : World)
    (s1 s2 : AddContextualData Sel) (msg : LogMessage) (db : ContextInfoDB) (A B : String)
    (hdb1 : heap_read w1.dbs s1.context_info_db = some db)
    (hdb2 : heap_read w2.dbs s2.context_info_db = some db)
    (hA : context_info_db_contains db (some A) = true)
    (hB : context_info_db_contains db (some B) = false)
    (hr1 : env.selector_resolve s1.selector msg = some B)
    (hd1 : c_str w1.strings s1.default_selector = some (some A))
    (hr2 : env.selector_resolve s2.selector msg = some A) :
    _process env w1 s1 msg = _process env w2 s2 msg
      ∧ _process env w2 s2 msg
          = some (true, (records_under db (some A)).foldl set_field msg) := by
  have h1 := process_eq env w1 s1 msg db (some A) hdb1 hd1
  have h2 : _process env w2 s2 msg
      = some (true, (records_under db (some A)).foldl set_field msg) := by
    unfold _process
    simp only [hdb2, log_msg_make_writable, hr2, hA, Bool.not_true, Bool.false_and,
      Bool.false_eq_true, ↓reduceIte, foreach_record_eq_foldl]
    rfl
  refine ⟨?_, h2⟩
  rw [h1, h2, hr1]
  simp [effective_key, hB]

/-- Witness of C2: `ex_stage` resolves to the absent `host2` with default
`host1`; `ex_stage_direct` resolves to `host1`. -/
theorem fallback_determinism_witness :
    _process ex_env ex_world ex_stage [] = _process ex_env ex_world ex_stage_direct []
      ∧ _process ex_env ex_world ex_stage_direct []
          = some (true, (records_under ex_db (some "host1")).foldl set_field []) :=
  fallback_determinism ex_env ex_world ex_world ex_stage ex_stage_direct [] ex_db
    "host1" "host2" (by decide) (by decide) (by decide) (by decide) (by decide) (by decide)
    (by decide)

/-- C3: when the resolved key is not a selector of the database and no default
selector is configured, `_process` leaves the record as it was and returns success. -/
theorem process_absent_key_without_default {Sel : Type} (env : Env Sel) (w : World)
    (self : AddContextualData Sel) (msg : LogMessage) (db : ContextInfoDB)
    (hdb : heap_read w.dbs self.context_info_db = some db)
    (hc : context_info_db_contains db (env.selector_resolve self.selector msg) = false)
    (hnd : self.default_selector = none) :
    _process env w self msg = some (true, msg) := by
  have hdef : c_str w.strings self.default_selector = some none := by
    rw [hnd]
    rfl
  rw [process_eq env w self msg db none hdb hdef]
  have hk : effective_key db (env.selector_resolve self.selector msg) none
      = env.selector_resolve self.selector msg := by
    simp [effective_key]
  rw [hk, records_under_of_not_contains db _ hc]
  rfl

/-- Witness of C3: the resolver yields `host2`, absent from `ex_db`, no default. -/
theorem process_absent_key_without_default_witness :
    _process ex_env ex_world ex_stage_absent [("owner", "x")]
      = some (true, [("owner", "x")]) :=
  process_absent_key_without_default ex_env ex_world ex_stage_absent [("owner", "x")] ex_db
    (by decide) (by decide) (by decide)

/-- C4 (overwrite ordering): when the records stored under `S`, in insertion order,
include `R1` and, later, `R2` with the same field name, and no record after
`R2` has that name, processing a record whose effective key is `S` succeeds
and leaves that field holding the value of `R2`, whatever the record held before. -/
theorem overwrite_ordering_last_inserted_wins {Sel : Type} (env : Env Sel) (w : World)
    (self : AddContextualData Sel) (msg : LogMessage) (db : ContextInfoDB)
    (dflt : Option String) (S : String) (R1 R2 : ContextualDataRecord)
    (l1 l2 l3 : List ContextualDataRecord)
    (hdb : heap_read w.dbs self.context_info_db = some db)
    (hdef : c_str w.strings self.default_selector = some dflt)
    (hkey : effective_key db (env.selector_resolve self.selector msg) dflt = some S)
    (hrec : records_under db (some S) = (l1 ++ R1 :: l2) ++ R2 :: l3)
    (hname : R1.name = R2.name)
    (hlast : ∀ r ∈ l3, r.name ≠ R2.name) :
    ∃ out, _process env w self msg = some (true, out)
      ∧ log_msg_get_value_by_name out R1.name = some R2.value := by
  refine ⟨_, process_eq env w self msg db dflt hdb hdef, ?_⟩
  rw [hkey, hname, hrec]
  exact get_foldl_set_field_last _ _ _ _ hlast

/-- Witness of C4: under `S`, `ex_db` stores `owner=alice` and then `owner=carol`;
the record arrives with `owner=x`. -/
theorem overwrite_ordering_last_inserted_wins_witness :
    ∃ out, _process ex_env ex_world (add_contextual_data_set_selector ex_stage (some "S"))
        [("owner", "x")] = some (true, out)
      ∧ log_msg_get_value_by_name out "owner" = some "carol" :=
  overwrite_ordering_last_inserted_wins ex_env ex_world
    (add_contextual_data_set_selector ex_stage (some "S")) [("owner", "x")] ex_db
    (some "host1") "S"
    { selector := "S", name := "owner", value := "alice" }
    { selector := "S", name := "owner", value := "carol" }
    [] [] [] (by decide) (by decide) (by decide) (by decide) (by decide) (by decide)

/-- Counterexample to C5 as stated: the database stores a record under the
empty-string selector, the resolver yields the empty string and no default
selector is set; the key after the fallback step is the empty string, and
`_process` injects the field `owner`. -/
theorem process_empty_string_key_injects :
    effective_key ex_db_empty_key
        (ex_env.selector_resolve ex_stage_empty_key.selector []) none = some ""
      ∧ _process ex_env ex_world_empty_key ex_stage_empty_key []
          = some (true, [("owner", "alice")])
      ∧ _process ex_env ex_world_empty_key ex_stage_empty_key [] ≠ some (true, []) := by
  decide

/-- C5 (amended): if the key left after the fallback step is absent (NULL), or
is the empty string while the database stores no record under the empty-string
selector, `_process` injects no field into the record and returns success. -/
theorem process_null_key_injects_nothing {Sel : Type} (env : Env Sel) (w : World)
    (self : AddContextualData Sel) (msg : LogMessage) (db : ContextInfoDB)
    (dflt : Option String)
    (hdb : heap_read w.dbs self.context_info_db = some db)
    (hdef : c_str w.strings self.default_selector = some dflt)
    (hkey : effective_key db (env.selector_resolve self.selector msg) dflt = none
      ∨ (effective_key db (env.selector_resolve self.selector msg) dflt = some ""
          ∧ context_info_db_contains db (some "") = false)) :
    _process env w self msg = some (true, msg) := by
  rw [process_eq env w self msg db dflt hdb hdef]
  rcases hkey with h | ⟨h, hc⟩
  · rw [h]
    rfl
  · rw [h, records_under_of_not_contains db _ hc]
    rfl

/-- Witness of C5 (amended): a stage without resolver result and without default
selector leaves the record alone, also over a database with an empty-string selector. -/
theorem process_null_key_injects_nothing_witness :
    _process ex_env ex_world_empty_key
        (add_contextual_data_set_selector ex_stage_empty_key none) [("owner", "x")]
      = some (true, [("owner", "x")]) :=
  process_null_key_injects_nothing ex_env ex_world_empty_key
    (add_contextual_data_set_selector ex_stage_empty_key none) [("owner", "x")]
    ex_db_empty_key none (by decide) (by decide) (Or.inl (by decide))

/-! ## Initialisation -/

/-- C6 (load if not already loaded): for a stage whose filename is set and whose
database is already loaded, `_init` constructs no scanner, opens no file,
imports nothing and leaves the world, hence the database contents, unchanged;
its outcome is the resolver's initialisation and then the host's. -/
theorem init_loaded_performs_no_load {Sel : Type} (env : Env Sel) (w : World)
    (self : AddContextualData Sel) (db : ContextInfoDB)
    (hdb : heap_read w.dbs self.context_info_db = some db)
    (hfn : self.filename ≠ none)
    (hl : context_info_db_is_loaded db = true) :
    ∃ t, _init env w self
        = some (env.selector_init self.selector (context_info_db_ordered_selectors db)
                  && env.log_parser_init_method, w, t)
      ∧ ∀ e ∈ t, Event.is_load_step e = false := by
  refine ⟨_, init_loaded_eq env w self db hdb hfn hl, ?_⟩
  intro e he
  cases hs : env.selector_init self.selector (context_info_db_ordered_selectors db) with
  | false =>
    simp only [hs, Bool.false_eq_true, ↓reduceIte, List.mem_singleton] at he
    subst he
    rfl
  | true =>
    simp only [hs, ↓reduceIte, List.mem_cons, List.mem_singleton, List.mem_nil_iff,
      or_false] at he
    rcases he with he | he <;> subst he <;> rfl

/-- Witness of C6: the database `ex_db` of `ex_stage` is loaded. -/
theorem init_loaded_performs_no_load_witness :
    ∃ t, _init ex_env ex_world ex_stage
        = some (ex_env.selector_init ex_stage.selector (context_info_db_ordered_selectors ex_db)
                  && ex_env.log_parser_init_method, ex_world, t)
      ∧ ∀ e ∈ t, Event.is_load_step e = false :=
  init_loaded_performs_no_load ex_env ex_world ex_stage ex_db (by decide) (by decide)
    (by decide)

/-- C7: on a valid stage `_init` returns, and it returns success exactly when the
filename is set, the database is already loaded or loading it succeeds, the
resolver's initialisation on the ordered selectors of the database succeeds,
and the host's initialisation succeeds; with the filename unset it fails
with the world untouched and nothing but the diagnostic in its trace. -/
theorem init_succeeds_exactly_when {Sel : Type} (env : Env Sel) (w : World)
    (self : AddContextualData Sel) (db : ContextInfoDB) (fname pfx : Option String)
    (hdb : heap_read w.dbs self.context_info_db = some db)
    (hf : c_str w.strings self.filename = some fname)
    (hp : c_str w.strings self.prefix_ = some pfx) :
    ∃ w1 t db1,
      _init env w self
        = some (database_ready env fname pfx db
                  && env.selector_init self.selector (context_info_db_ordered_selectors db1)
                  && env.log_parser_init_method, w1, t)
      ∧ heap_read w1.dbs self.context_info_db = some db1
      ∧ (fname = none → w1 = w ∧ t = [Event.msg_error "No database file set."]) := by
  obtain ⟨w1, t, db1, h, hdb1, hnone, _⟩ := init_eq env w self db fname pfx hdb hf hp
  exact ⟨w1, t, db1, h, hdb1, hnone⟩

/-- Witness of C7: the fresh stage `ex_stage_fresh` with its database not yet loaded. -/
theorem init_succeeds_exactly_when_witness :
    ∃ w1 t db1,
      _init ex_env ex_world_fresh ex_stage_fresh
        = some (database_ready ex_env (some "db.csv") none context_info_db_new
                  && ex_env.selector_init ex_stage_fresh.selector
                      (context_info_db_ordered_selectors db1)
                  && ex_env.log_parser_init_method, w1, t)
      ∧ heap_read w1.dbs ex_stage_fresh.context_info_db = some db1
      ∧ ((some "db.csv" : Option String) = none
          → w1 = ex_world_fresh ∧ t = [Event.msg_error "No database file set."]) :=
  init_succeeds_exactly_when ex_env ex_world_fresh ex_stage_fresh context_info_db_new
    (some "db.csv") none (by decide) (by decide) (by decide)

/-- C10 (path resolution): `_open_data_file` hands exactly one path to `fopen`: the
filename verbatim when its first character is a slash, the filename joined
onto the configuration directory otherwise (also for the empty filename);
and every path `_init` opens on a valid stage is that path. -/
theorem open_data_file_opens_resolved_path {Sel : Type} (env : Env Sel) (filename : String) :
    _open_data_file env filename
        = (env.fopen (resolved_path env filename),
           [Event.file_open (resolved_path env filename)])
      ∧ ∀ (w : World) (self : AddContextualData Sel) (db : ContextInfoDB)
          (pfx : Option String) (ok : Bool) (w1 : World) (t : List Event) (path : String),
          heap_read w.dbs self.context_info_db = some db →
          c_str w.strings self.filename = some (some filename) →
          c_str w.strings self.prefix_ = some pfx →
          _init env w self = some (ok, w1, t) →
          Event.file_open path ∈ t → path = resolved_path env filename := by
  refine ⟨open_data_file_eq env filename, ?_⟩
  intro w self db pfx ok w1 t path hdb hf hp hinit hmem
  obtain ⟨w2, t2, db1, h, _, _, hpath⟩ := init_eq env w self db (some filename) pfx hdb hf hp
  rw [h] at hinit
  simp only [Option.some.injEq, Prod.mk.injEq] at hinit
  obtain ⟨_, _, ht⟩ := hinit
  subst ht
  exact hpath filename path rfl hmem

/-- Witness of C10: the relative filename `db.csv` of the fresh stage is opened
under the configuration directory. -/
theorem open_data_file_opens_resolved_path_witness :
    "/etc/syslog-ng/db.csv" = resolved_path ex_env "db.csv" :=
  (open_data_file_opens_resolved_path ex_env "db.csv").2 ex_world_fresh ex_stage_fresh
    context_info_db_new none true
    { strings := [some "db.csv"],
      dbs := [some { ref_cnt := 1, is_loaded := true,
                     data := [{ selector := "host1", name := "datacenter", value := "dc1" },
                              { selector := "host1", name := "owner", value := "alice" }] }] }
    [Event.scanner_new (some "csv"), Event.file_open "/etc/syslog-ng/db.csv", Event.db_import,
     Event.scanner_free, Event.file_close, Event.selector_init ["host1"], Event.parser_init]
    "/etc/syslog-ng/db.csv" (by decide) (by decide) (by decide) (by decide) (by decide)

/-! ## Clone -/

/-- C8: the clone of a valid stage has the filename, prefix and default selector
of the original by value, points to the very same database, whose reference
count is raised by exactly one and whose contents are as before; afterwards
any setter run on either stage leaves the configuration of the other stage
and the database heap unchanged. -/
theorem clone_shares_database_and_copies_config {Sel : Type} (env : Env Sel) (w : World)
    (self : AddContextualData Sel) (db : ContextInfoDB) (f p d : Option String)
    (hdb : heap_read w.dbs self.context_info_db = some db)
    (hf : c_str w.strings self.filename = some f)
    (hp : c_str w.strings self.prefix_ = some p)
    (hd : c_str w.strings self.default_selector = some d) :
    ∃ w1 cloned, _clone env w self = some (w1, cloned)
      ∧ stage_config w1 cloned = stage_config w self
      ∧ stage_config w1 self = stage_config w self
      ∧ cloned.context_info_db = self.context_info_db
      ∧ heap_read w1.dbs cloned.context_info_db = some { db with ref_cnt := db.ref_cnt + 1 }
      ∧ (∀ m : ConfigSetter, stage_config (m.run w1 cloned).1 self = stage_config w1 self
            ∧ (m.run w1 cloned).1.dbs = w1.dbs)
      ∧ (∀ m : ConfigSetter, stage_config (m.run w1 self).1 cloned = stage_config w1 cloned
            ∧ (m.run w1 self).1.dbs = w1.dbs) := by
  obtain ⟨w1, cloned, hclone, hcdb, _, hr1, hcfgc, hcfgs, hfresh, _⟩ :=
    clone_eq env w self db f p d hdb hf hp hd
  have hcfg : stage_config w self = (some f, some p, some d) := by
    simp only [stage_config, hf, hp, hd]
  have hold : ∀ b, (self.filename = some b ∨ self.prefix_ = some b
      ∨ self.default_selector = some b) → b < w.strings.length := by
    intro b hb
    rcases hb with hb | hb | hb
    · exact c_str_lt w.strings b f (hb ▸ hf)
    · exact c_str_lt w.strings b p (hb ▸ hp)
    · exact c_str_lt w.strings b d (hb ▸ hd)
  have hsep : ∀ a b, (cloned.filename = some a ∨ cloned.prefix_ = some a
      ∨ cloned.default_selector = some a) →
      (self.filename = some b ∨ self.prefix_ = some b ∨ self.default_selector = some b) →
      a ≠ b := by
    intro a b ha hb hab
    have h1 := hfresh a ha
    have h2 := hold b hb
    rw [hab] at h1
    exact absurd h2 (Nat.not_lt_of_le h1)
  have hc := hcfgc
  have hs := hcfgs
  simp only [stage_config, Prod.mk.injEq] at hc hs
  refine ⟨w1, cloned, hclone, hcfgc.trans hcfg.symm, hcfgs.trans hcfg.symm, hcdb,
    by rw [hcdb]; exact hr1, ?_, ?_⟩
  · intro m
    have e1 := setter_frame m w1 cloned self.filename f hs.1
      (fun a b ha hb => hsep a b ha (Or.inl hb))
    have e2 := setter_frame m w1 cloned self.prefix_ p hs.2.1
      (fun a b ha hb => hsep a b ha (Or.inr (Or.inl hb)))
    have e3 := setter_frame m w1 cloned self.default_selector d hs.2.2
      (fun a b ha hb => hsep a b ha (Or.inr (Or.inr hb)))
    refine ⟨?_, e1.2⟩
    rw [hcfgs]
    simp only [stage_config, e1.1, e2.1, e3.1]
  · intro m
    have e1 := setter_frame m w1 self cloned.filename f hc.1
      (fun a b ha hb => (hsep b a (Or.inl hb) ha).symm)
    have e2 := setter_frame m w1 self cloned.prefix_ p hc.2.1
      (fun a b ha hb => (hsep b a (Or.inr (Or.inl hb)) ha).symm)
    have e3 := setter_frame m w1 self cloned.default_selector d hc.2.2
      (fun a b ha hb => (hsep b a (Or.inr (Or.inr hb)) ha).symm)
    refine ⟨?_, e1.2⟩
    rw [hcfgc]
    simp only [stage_config, e1.1, e2.1, e3.1]

/-- Witness of C8: the clone of `ex_stage` in `ex_world`. -/
theorem clone_shares_database_and_copies_config_witness :
    ∃ w1 cloned, _clone ex_env ex_world ex_stage = some (w1, cloned)
      ∧ stage_config w1 cloned = stage_config ex_world ex_stage
      ∧ stage_config w1 ex_stage = stage_config ex_world ex_stage
      ∧ cloned.context_info_db = ex_stage.context_info_db
      ∧ heap_read w1.dbs cloned.context_info_db
          = some { ex_db with ref_cnt := ex_db.ref_cnt + 1 }
      ∧ (∀ m : ConfigSetter, stage_config (m.run w1 cloned).1 ex_stage = stage_config w1 ex_stage
            ∧ (m.run w1 cloned).1.dbs = w1.dbs)
      ∧ (∀ m : ConfigSetter, stage_config (m.run w1 ex_stage).1 cloned = stage_config w1 cloned
            ∧ (m.run w1 ex_stage).1.dbs = w1.dbs) :=
  clone_shares_database_and_copies_config ex_env ex_world ex_stage ex_db (some "db.csv")
    (some "ctx.") (some "host1") (by decide) (by decide) (by decide) (by decide)

/-- Counterexample to C9 as stated: `ex_stage_absent` is initialised (its resolver
yields `host2`, absent from the database, and it has no default selector);
after its clone has the default selector set to `host1`, processing the empty
record injects nothing on the original and two fields on the clone. -/
theorem clone_default_selector_mutation_changes_result :
    (_init ex_env ex_world ex_stage_absent).map (fun r => (r.1, r.2.1))
        = some (true, ex_world)
      ∧ (_clone ex_env ex_world ex_stage_absent).map (fun r =>
            _process ex_env
              (add_contextual_data_set_database_default_selector r.1 r.2 (some "host1")).1
              ex_stage_absent [])
          = some (some (true, []))
      ∧ (_clone ex_env ex_world ex_stage_absent).map (fun r =>
            _process ex_env
              (add_contextual_data_set_database_default_selector r.1 r.2 (some "host1")).1
              (add_contextual_data_set_database_default_selector r.1 r.2 (some "host1")).2
              [])
          = some (some (true, [("datacenter", "dc1"), ("owner", "bob")])) := by
  decide

/-- C9 (amended): for a valid stage and its clone, after either of the two has had
its prefix or filename set, or its default selector set while the resolved key
of the record is a selector of the database, processing the same record on
the original and on the clone succeeds with identical resulting records. -/
theorem clone_process_agrees_after_mutation {Sel : Type} (env : Env Sel) (w : World)
    (self : AddContextualData Sel) (db : ContextInfoDB) (f p d : Option String)
    (msg : LogMessage) (m : ConfigSetter)
    (hdb : heap_read w.dbs self.context_info_db = some db)
    (hf : c_str w.strings self.filename = some f)
    (hp : c_str w.strings self.prefix_ = some p)
    (hd : c_str w.strings self.default_selector = some d)
    (hown : ∀ a, self.default_selector = some a →
      self.filename ≠ some a ∧ self.prefix_ ≠ some a)
    (hres : env.selector_resolve (env.selector_clone self.selector) msg
      = env.selector_resolve self.selector msg)
    (hm : m.keeps_default = true
      ∨ context_info_db_contains db (env.selector_resolve self.selector msg) = true) :
    ∃ w1 cloned out, _clone env w self = some (w1, cloned)
      ∧ _process env (m.run w1 cloned).1 self msg = some (true, out)
      ∧ _process env (m.run w1 cloned).1 (m.run w1 cloned).2 msg = some (true, out)
      ∧ _process env (m.run w1 self).1 (m.run w1 self).2 msg = some (true, out)
      ∧ _process env (m.run w1 self).1 cloned msg = some (true, out) := by
  obtain ⟨w1, cloned, hclone, hcdb, hsel, hr1, hcfgc, hcfgs, hfresh, hcown⟩ :=
    clone_eq env w self db f p d hdb hf hp hd
  have hold : ∀ b, (self.filename = some b ∨ self.prefix_ = some b
      ∨ self.default_selector = some b) → b < w.strings.length := by
    intro b hb
    rcases hb with hb | hb | hb
    · exact c_str_lt w.strings b f (hb ▸ hf)
    · exact c_str_lt w.strings b p (hb ▸ hp)
    · exact c_str_lt w.strings b d (hb ▸ hd)
  have hsep : ∀ a b, (cloned.filename = some a ∨ cloned.prefix_ = some a
      ∨ cloned.default_selector = some a) →
      (self.filename = some b ∨ self.prefix_ = some b ∨ self.default_selector = some b) →
      a ≠ b := by
    intro a b ha hb hab
    have h1 := hfresh a ha
    have h2 := hold b hb
    rw [hab] at h1
    exact absurd h2 (Nat.not_lt_of_le h1)
  simp only [stage_config, Prod.mk.injEq] at hcfgc hcfgs
  have hr1c : heap_read w1.dbs cloned.context_info_db
      = some { db with ref_cnt := db.ref_cnt + 1 } := by
    rw [hcdb]
    exact hr1
  have hm1 : m.keeps_default = true
      ∨ context_info_db_contains { db with ref_cnt := db.ref_cnt + 1 }
          (env.selector_resolve self.selector msg) = true := hm
  have hm2 : m.keeps_default = true
      ∨ context_info_db_contains { db with ref_cnt := db.ref_cnt + 1 }
          (env.selector_resolve cloned.selector msg) = true := by
    rw [hsel, hres]
    exact hm
  have r1 := process_after_setter_other env m w1 cloned self msg _ d hr1 hcfgs.2.2
    (fun a b ha hb => hsep a b ha (Or.inr (Or.inr hb)))
  have r2 := process_after_setter_own env m w1 cloned msg _ d hr1c hcfgc.2.2 hcown hm2
  have r3 := process_after_setter_own env m w1 self msg _ d hr1 hcfgs.2.2 hown hm1
  have r4 := process_after_setter_other env m w1 self cloned msg _ d hr1c hcfgc.2.2
    (fun a b ha hb => (hsep b a (Or.inr (Or.inr hb)) ha).symm)
  rw [hsel, hres] at r2 r4
  exact ⟨w1, cloned, _, hclone, r1, r2, r3, r4⟩

/-- Witness of C9 (amended): the prefix of the clone of `ex_stage` is set to `new.`. -/
theorem clone_process_agrees_after_mutation_witness :
    ∃ w1 cloned out, _clone ex_env ex_world ex_stage = some (w1, cloned)
      ∧ _process ex_env ((ConfigSetter.set_prefix (some "new.")).run w1 cloned).1 ex_stage
          [("owner", "x")] = some (true, out)
      ∧ _process ex_env ((ConfigSetter.set_prefix (some "new.")).run w1 cloned).1
          ((ConfigSetter.set_prefix (some "new.")).run w1 cloned).2 [("owner", "x")]
          = some (true, out)
      ∧ _process ex_env ((ConfigSetter.set_prefix (some "new.")).run w1 ex_stage).1
          ((ConfigSetter.set_prefix (some "new.")).run w1 ex_stage).2 [("owner", "x")]
          = some (true, out)
      ∧ _process ex_env ((ConfigSetter.set_prefix (some "new.")).run w1 ex_stage).1 cloned
          [("owner", "x")] = some (true, out) :=
  clone_process_agrees_after_mutation ex_env ex_world ex_stage ex_db (some "db.csv")
    (some "ctx.") (some "host1") [("owner", "x")] (ConfigSetter.set_prefix (some "new."))
    (by decide) (by decide) (by decide) (by decide) (by decide) (by decide)
    (Or.inl (by decide))

end AddContextualDataModel
